import Mathlib

set_option maxHeartbeats 1000000

/-
Shallow embedding of static/main.js (client-side controller of the
QHSE site-visit report form). Browser state (DOM elements, the
pending-items array, signature pads) is made explicit; asynchronous
file reads and the network call are modelled by their observable
outcomes. Each definition cites the source lines it embeds.
-/

/-- One defect line entry of the report, as built by handleAddItem
(main.js lines 144-153). JS numbers that reach quantity are integers
produced by parseInt, so quantity is an Int. -/
structure ReportItem where
  asset : String
  system : String
  description : String
  quantity : Int
  brand : String
  comments : String
  photoFiles : List String
deriving Repr, DecidableEq

/-- A notification displayed through showNotification: kind, title, body. -/
structure Notification where
  kind : String
  title : String
  message : String
deriving Repr, DecidableEq

/-- Which pieces of the modal scaffold exist in the document
(main.js lines 19, 31, 34, 36). -/
structure NotifyDom where
  modalPresent : Bool
  titlePresent : Bool
  bodyPresent : Bool
  dialogPresent : Bool
deriving Repr, DecidableEq

/-- Observable outcome of showNotification: silent no-op when the top
modal element is missing, a thrown TypeError when a sub-element that the
code dereferences without a guard is missing, or the shown modal with
its icon class, border class, title and body. -/
inductive NotifyResult where
  | noop
  | crash (what : String)
  | shown (iconClass : String) (borderClass : String) (title : String) (body : String)
deriving Repr, DecidableEq

/-- The iconMap lookup with the info fallback, main.js lines 22-29:
iconMap[type] with unrecognized type falling back to the info entry. -/
def iconDataOf (t : String) : String × String :=
  if t = "success" then ("fa-circle-check text-success", "border-success")
  else if t = "error" then ("fa-circle-xmark text-danger", "border-danger")
  else if t = "warning" then ("fa-triangle-exclamation text-warning", "border-warning")
  else ("fa-circle-info text-info", "border-info")

/-- showNotification, main.js lines 18-41. The code returns early only
when customAlertModal is absent (line 20); it then dereferences
customAlertTitle (line 31), customAlertBody (line 34) and the
querySelector result for .modal-content (lines 36-38) without guards,
so a missing one of those throws. -/
def showNotification (dom : NotifyDom) (type : String) (title : String) (message : String) : NotifyResult :=
  if dom.modalPresent = false then NotifyResult.noop
  else if dom.titlePresent = false then NotifyResult.crash "customAlertTitle"
  else if dom.bodyPresent = false then NotifyResult.crash "customAlertBody"
  else if dom.dialogPresent = false then NotifyResult.crash "modal-content"
  else NotifyResult.shown (iconDataOf type).1 (iconDataOf type).2 title message

/-- Value of a decimal or hexadecimal digit character, as parseInt
accepts them; none when the character is not a digit of the radix. -/
def jsDigitVal (radix : Nat) (c : Char) : Option Nat :=
  let n := c.toNat
  let v : Option Nat :=
    if 48 ≤ n ∧ n ≤ 57 then some (n - 48)
    else if 97 ≤ n ∧ n ≤ 122 then some (n - 87)
    else if 65 ≤ n ∧ n ≤ 90 then some (n - 55)
    else none
  match v with
  | some d => if d < radix then some d else none
  | none => none

/-- JS parseInt with no radix argument, as used on the quantity string
(main.js line 148) : skip leading whitespace, read an optional sign,
switch to base 16 after a 0x or 0X prefix, then read the longest run of
digits of the radix; none models the NaN result when no digit follows. -/
def parseIntJS (s : String) : Option Int :=
  let cs := s.toList.dropWhile Char.isWhitespace
  let signAndRest : Int × List Char :=
    match cs with
    | '-' :: rest => (-1, rest)
    | '+' :: rest => (1, rest)
    | _ => (1, cs)
  let radixAndRest : Nat × List Char :=
    match signAndRest.2 with
    | '0' :: 'x' :: rest => (16, rest)
    | '0' :: 'X' :: rest => (16, rest)
    | _ => (10, signAndRest.2)
  let ds := radixAndRest.2.takeWhile (fun c => (jsDigitVal radixAndRest.1 c).isSome)
  if ds.isEmpty then none
  else
    some (signAndRest.1 *
      (ds.foldl (fun acc c => acc * radixAndRest.1 + (jsDigitVal radixAndRest.1 c).getD 0) 0 : Nat))

/-- The expression parseInt(quantity) || 1 of main.js line 148: NaN and
0 are falsy, so both fall back to 1; any other parsed integer, negative
ones included, is kept. -/
def quantityOf (s : String) : Int :=
  match parseIntJS s with
  | none => 1
  | some n => if n = 0 then 1 else n

/-- A file selected in the photo input, tagged with the outcome its
FileReader conversion will have: ok carries the base64 payload the read
resolves with, bad carries the error the read rejects with
(main.js lines 129-135). -/
inductive PhotoFile where
  | ok (base64 : String)
  | bad (err : String)
deriving Repr, DecidableEq

/-- fileToBase64, main.js lines 129-136: one asynchronous read that
resolves with the encoded payload or rejects with an error. -/
def fileToBase64 : PhotoFile → Except String String
  | PhotoFile.ok b => Except.ok b
  | PhotoFile.bad e => Except.error e

/-- Whether the conversion of this file succeeds. -/
def PhotoFile.isOk : PhotoFile → Bool
  | PhotoFile.ok _ => true
  | PhotoFile.bad _ => false

/-- The payload a successful conversion resolves with. -/
def okPayload : PhotoFile → String
  | PhotoFile.ok b => b
  | PhotoFile.bad _ => ""

/-- Promise.all(files.map(fileToBase64)), main.js line 139: resolves
with the payloads in the original file order when every conversion
succeeds, rejects as a whole when any conversion fails. -/
def encodeAll : List PhotoFile → Except String (List String)
  | [] => Except.ok []
  | f :: fs =>
    match fileToBase64 f with
    | Except.error e => Except.error e
    | Except.ok b =>
      match encodeAll fs with
      | Except.error e => Except.error e
      | Except.ok bs => Except.ok (b :: bs)

/-- The form fields read by handleAddItem, main.js lines 110-116; the
raw quantity string is kept, parsing happens inside the handler. -/
structure AddInputs where
  asset : String
  system : String
  description : String
  quantity : String
  brand : String
  comments : String
  files : List PhotoFile
deriving Repr, DecidableEq

/-- Outcome of one add-item attempt: the pending-items array after the
attempt, the notifications shown (in order), and whether the input
fields were reset (main.js lines 159-165 run only on success). -/
structure AddOutcome where
  store : List ReportItem
  notifications : List Notification
  inputsReset : Bool
deriving Repr, DecidableEq

/-- The notification of main.js line 120. -/
def missingFieldsNote : Notification :=
  { kind := "error", title := "Missing Fields",
    message := "Please select an **Asset**, **System**, and **Description**." }

/-- The notification of main.js line 171. -/
def photoErrorNote : Notification :=
  { kind := "error", title := "Photo Error", message := "Failed to process photos." }

/-- The notification of main.js line 167. -/
def itemAddedNote : Notification :=
  { kind := "success", title := "Item Added",
    message := "Defect item successfully added to the report list." }

/-- handleAddItem, main.js lines 109-173. The falsy test !asset on a
string is true exactly when the string is empty. On validation failure
or on a rejected Promise.all the store is untouched and one error
notification is shown; on success the new item is pushed and the inputs
are reset. -/
def handleAddItem (inp : AddInputs) (store : List ReportItem) : AddOutcome :=
  if inp.asset = "" ∨ inp.system = "" ∨ inp.description = "" then
    { store := store, notifications := [missingFieldsNote], inputsReset := false }
  else
    match encodeAll inp.files with
    | Except.error _ =>
      { store := store, notifications := [photoErrorNote], inputsReset := false }
    | Except.ok bs =>
      { store := store ++
          [{ asset := inp.asset, system := inp.system, description := inp.description,
             quantity := quantityOf inp.quantity, brand := inp.brand,
             comments := inp.comments, photoFiles := bs }],
        notifications := [itemAddedNote], inputsReset := true }

/-- The item a valid add appends (all files convert successfully). -/
def itemOf (inp : AddInputs) : ReportItem :=
  { asset := inp.asset, system := inp.system, description := inp.description,
    quantity := quantityOf inp.quantity, brand := inp.brand,
    comments := inp.comments, photoFiles := inp.files.map okPayload }

/-- A sequence of add attempts folded over the store, as repeated
clicks of the add button produce. -/
def addAll (inps : List AddInputs) (store : List ReportItem) : List ReportItem :=
  inps.foldl (fun s i => (handleAddItem i s).store) store

/-- An add attempt whose required fields are non-empty and whose files
all convert. -/
def validAdd (inp : AddInputs) : Prop :=
  inp.asset ≠ "" ∧ inp.system ≠ "" ∧ inp.description ≠ "" ∧ ∀ f ∈ inp.files, f.isOk = true

/-- The required-fields predicate of the store invariant. -/
def goodItem (it : ReportItem) : Prop :=
  it.asset ≠ "" ∧ it.system ≠ "" ∧ it.description ≠ ""

/-- Every item of the store has non-empty asset, system, description. -/
def storeInv (s : List ReportItem) : Prop := ∀ it ∈ s, goodItem it

/-- One rendered row of the pending list, main.js lines 70-93: the
display position written into data-index, the display text, the
optional comments line (line 84, shown only when comments is truthy),
and the index carried by the remove button (line 87). -/
structure RowView where
  index : Nat
  text : String
  commentsLine : Option String
  removeIndex : Nat
deriving Repr, DecidableEq

/-- The display text of a row, main.js lines 76-79; brand falls back to
N/A when empty (falsy). -/
def displayTextOf (item : ReportItem) : String :=
  item.asset ++ " - " ++ item.system ++ ": " ++ item.description ++
  " (Qty: " ++ toString item.quantity ++ ", Brand: " ++
  (if item.brand = "" then "N/A" else item.brand) ++
  ", Photos: " ++ toString item.photoFiles.length ++ ")"

/-- The row built for the item at a given display position. -/
def rowOf (index : Nat) (item : ReportItem) : RowView :=
  { index := index, text := displayTextOf item,
    commentsLine := if item.comments = "" then none else some item.comments,
    removeIndex := index }

/-- State of the pending-items list region of the document: whether
the pendingItemsList container exists, whether the emptyListMessage
element is currently attached to the document (getElementById finds
only attached nodes), the report-item rows the container holds, and the
display style of the placeholder. Assigning innerHTML on the container
(main.js line 61) detaches every child, the placeholder included. -/
structure ListView where
  containerPresent : Bool
  emptyMessageAttached : Bool
  rows : List RowView
  emptyVisible : Bool
deriving Repr, DecidableEq

/-- renderPendingItems, main.js lines 49-104. The function re-fetches
pendingItemsList and emptyListMessage with getElementById (lines 50-52)
and early-returns with a console error when either is not found (lines
54-57), leaving the view unchanged. Otherwise it clears the container
(line 61), detaching the placeholder when it sits inside; the empty
branch re-appends the placeholder and shows it (lines 63-66), while the
non-empty branch only hides the now-detached node (line 68) and appends
one row per item in store order (lines 70-93) without re-appending the
placeholder — so after a non-empty render the placeholder is orphaned,
getElementById no longer finds it, and every later call takes the early
return. -/
def renderPendingItems (store : List ReportItem) (prior : ListView) : ListView :=
  if prior.containerPresent = false ∨ prior.emptyMessageAttached = false then
    prior
  else if store.length = 0 then
    { containerPresent := prior.containerPresent, emptyMessageAttached := true,
      rows := [], emptyVisible := true }
  else
    { containerPresent := prior.containerPresent, emptyMessageAttached := false,
      rows := store.enum.map (fun p => rowOf p.1 p.2), emptyVisible := false }

/-- Array.prototype.splice(start, 1) on the pending-items array,
main.js line 99: a negative start is clamped to length + start but not
below 0, a start beyond the length removes nothing. -/
def spliceRemoveOne {α : Type} (l : List α) (start : Int) : List α :=
  let len : Int := (l.length : Int)
  let actualStart : Nat :=
    if start < 0 then (max (len + start) 0).toNat else (min start len).toNat
  l.take actualStart ++ l.drop (actualStart + 1)

/-- Click handler of a remove button, main.js lines 97-101: splice out
the item at the data-index of the clicked row, then re-render. The
data-index values present at click time are the decimal naturals
0..N-1 written by the last render. -/
def removeAtClick (store : List ReportItem) (i : Nat) (prior : ListView) :
    List ReportItem × ListView :=
  let s := spliceRemoveOne store (i : Int)
  (s, renderPendingItems s prior)

/-- The technician signature pad capability: all onSubmit consults is
whether it reports empty content (main.js line 195). -/
structure Pad where
  isEmpty : Bool
deriving Repr, DecidableEq

/-- SignaturePad construction at startup, main.js lines 286-293: the
pad object exists only when its canvas element does; a freshly
constructed pad is empty. -/
def bootstrapTechPad (canvasPresent : Bool) : Option Pad :=
  if canvasPresent then some { isEmpty := true } else none

/-- The DOM values onSubmit reads: the two hidden signature fields
(main.js lines 193, 214) and the flat form fields serialized from
FormData (lines 203-210). -/
structure SubmitDom where
  techSigData : String
  opManSigData : String
  formFields : List (String × String)
deriving Repr, DecidableEq

/-- classList.remove on the submission alert element. -/
def removeClass (cs : List String) (c : String) : List String :=
  cs.filter (fun x => x ≠ c)

/-- classList.add: appends the class when absent, no-op when present. -/
def addClass (cs : List String) (c : String) : List String :=
  if c ∈ cs then cs else cs ++ [c]

/-- The status div, the submission alert element and the download area,
as onSubmit mutates them (main.js lines 185-190, 196-198, 220-223). -/
structure UiState where
  statusText : String
  alertClasses : List String
  alertText : String
  downloadAreaCleared : Bool
deriving Repr, DecidableEq

/-- The JSON body posted to /submit-report, main.js lines 207-217: the
flat form fields, with the keys tech_signature, opMan_signature and
report_items assigned last, so these three fields hold the values of
lines 213, 214, 217 even if a form field of the same name existed. -/
structure Payload where
  fields : List (String × String)
  tech_signature : String
  opMan_signature : String
  report_items : List ReportItem
deriving Repr, DecidableEq

/-- Whether the synchronous part of onSubmit issued the POST, and with
which body. -/
inductive PostAction where
  | none
  | post (payload : Payload)
deriving Repr, DecidableEq

/-- Result of the synchronous part of onSubmit: the mutated UI, the
pending-items array (onSubmit never writes it) and the network action. -/
structure SubmitOutcome where
  ui : UiState
  store : List ReportItem
  action : PostAction
deriving Repr, DecidableEq

/-- Synchronous part of onSubmit, main.js lines 182-230: clear the
download area, then the guard window.techPad && window.techPad.isEmpty()
(line 195) — an absent pad object is falsy, so the guard fires only
when the pad exists and is empty; on the guarded path set the warning
banner and return without touching the network or the store; otherwise
assemble the payload, set the submitting UI and issue the POST. -/
def onSubmitSync (techPad : Option Pad) (dom : SubmitDom) (items : List ReportItem)
    (ui : UiState) : SubmitOutcome :=
  let ui0 : UiState := { ui with downloadAreaCleared := true }
  let padEmpty : Bool :=
    match techPad with
    | some p => p.isEmpty
    | none => false
  if padEmpty then
    { ui := { ui0 with
        alertClasses := addClass (removeClass ui0.alertClasses "alert-info") "alert-warning",
        alertText := "Please provide the Technician Signature before submitting." },
      store := items,
      action := PostAction.none }
  else
    { ui := { ui0 with
        statusText := "Submitting... Please wait.",
        alertClasses :=
          addClass (removeClass (removeClass (removeClass ui0.alertClasses
            "alert-success") "alert-danger") "alert-warning") "alert-info",
        alertText := "Report is being processed. This may take a moment..." },
      store := items,
      action := PostAction.post
        { fields := dom.formFields, tech_signature := dom.techSigData,
          opMan_signature := dom.opManSigData, report_items := items } }

/-- DOM actions of the download logic, main.js lines 250-265. -/
inductive DomAct where
  | createAnchor (url : String) (filename : String) (hidden : Bool)
  | appendAnchor (url : String) (filename : String)
  | clickAnchor (url : String) (filename : String)
  | removeAnchor (url : String) (filename : String)
deriving Repr, DecidableEq

/-- The part of triggerDownload that runs synchronously in the calling
tick, main.js lines 251-255: create the invisible anchor and append it.
The click and removal are NOT here: lines 257-260 wrap them in
setTimeout(..., 0) on every call. -/
def triggerDownloadSync (url : String) (filename : String) : List DomAct :=
  [DomAct.createAnchor url filename true, DomAct.appendAnchor url filename]

/-- The timer callback triggerDownload schedules, main.js lines
257-260: click the anchor, then remove it. -/
def triggerDownloadTimer (url : String) (filename : String) : List DomAct :=
  [DomAct.clickAnchor url filename, DomAct.removeAnchor url filename]

/-- The response body of a successful POST, main.js line 242-243: the
two URL fields may be absent. -/
structure ResponseData where
  pdf_url : Option String
  excel_url : Option String
deriving Repr, DecidableEq

/-- The JS expression v || fallback on an optional string: an absent or
empty (falsy) value yields the fallback. -/
def jsOrStr (v : Option String) (fallback : String) : String :=
  match v with
  | some s => if s = "" then fallback else s
  | none => fallback

/-- The notification of main.js line 268. -/
def reportsGeneratedNote : Notification :=
  { kind := "success", title := "Reports Generated",
    message := "Your PDF and Excel reports should be downloading automatically. Check your browser downloads." }

/-- Outcome of the success handler: UI fields, the DOM actions run in
the handler tick, the timer callbacks in registration order (zero
delay, FIFO), the notifications, and the store (not written). -/
structure SuccessOutcome where
  statusText : String
  alertClasses : List String
  alertText : String
  syncActs : List DomAct
  timers : List (List DomAct)
  notifications : List Notification
  store : List ReportItem
deriving Repr, DecidableEq

/-- The .then success handler of the POST, main.js lines 231-269: set
the success UI, resolve the two URLs with their fallbacks, call
triggerDownload for the pdf then for the excel file, show the success
notification. Each triggerDownload call appends its anchor now and
schedules its click and removal on a zero-delay timer. -/
def onSubmitSuccess (r : ResponseData) (store : List ReportItem) (ui : UiState) :
    SuccessOutcome :=
  let pdfUrl := jsOrStr r.pdf_url "/download-pdf"
  let excelUrl := jsOrStr r.excel_url "/download-excel"
  { statusText := "Submission Successful!",
    alertClasses := addClass (removeClass ui.alertClasses "alert-info") "alert-success",
    alertText := "Report successfully generated. Downloads are starting automatically!",
    syncActs := triggerDownloadSync pdfUrl "Site_Visit_Report.pdf" ++
      triggerDownloadSync excelUrl "Site_Visit_Report.xlsx",
    timers := [triggerDownloadTimer pdfUrl "Site_Visit_Report.pdf",
      triggerDownloadTimer excelUrl "Site_Visit_Report.xlsx"],
    notifications := [reportsGeneratedNote],
    store := store }

/-- Whether a DOM action is a download activation (anchor click). -/
def isClickAct : DomAct → Bool
  | DomAct.clickAnchor _ _ => true
  | _ => false

/-- The parsed body of an error response; its message field may be
absent (JS undefined). -/
structure RespData where
  message : Option String
deriving Repr, DecidableEq

/-- The response attached to an axios error, when the server answered
at all; data is its parsed body when truthy. -/
structure ErrResp where
  data : Option RespData
deriving Repr, DecidableEq

/-- An axios error object: the optional server response and the
transport error text. -/
structure AxiosError where
  response : Option ErrResp
  message : String
deriving Repr, DecidableEq

/-- Template-literal rendering of a possibly-undefined string: JS
prints undefined as the text undefined. -/
def jsShowOptStr : Option String → String
  | some s => s
  | none => "undefined"

/-- The ternary of main.js line 276: error.response && error.response.data
? error.response.data.message : error.message. When response and data
are both truthy the (possibly undefined) message field is used,
otherwise the transport error text. -/
def catchBannerMsg (e : AxiosError) : String :=
  match e.response with
  | some r =>
    match r.data with
    | some d => jsShowOptStr d.message
    | none => e.message
  | none => e.message

/-- The notification of main.js line 277. -/
def submissionFailedNote : Notification :=
  { kind := "error", title := "Submission Failed",
    message := "The report submission to the server failed. Check the console for details." }

/-- Outcome of the failure handler: UI fields, notifications, and the
store (not written). -/
structure FailOutcome where
  statusText : String
  alertClasses : List String
  alertText : String
  notifications : List Notification
  store : List ReportItem
deriving Repr, DecidableEq

/-- The .catch handler of the POST, main.js lines 271-278. -/
def onSubmitError (e : AxiosError) (store : List ReportItem) (ui : UiState) : FailOutcome :=
  { statusText := "Submission Failed!",
    alertClasses := addClass (removeClass ui.alertClasses "alert-info") "alert-danger",
    alertText := "Error: " ++ catchBannerMsg e ++ ". Check console for details.",
    notifications := [submissionFailedNote],
    store := store }

/-- A concrete initial UI state for concrete evaluations. -/
def uiInit : UiState :=
  { statusText := "", alertClasses := ["alert-info"], alertText := "",
    downloadAreaCleared := false }

/-- The list region as the page loads: container and placeholder both
present in the document, no report-item rows yet. -/
def domInit : ListView :=
  { containerPresent := true, emptyMessageAttached := true, rows := [],
    emptyVisible := true }

instance (inp : AddInputs) : Decidable (validAdd inp) := by
  unfold validAdd; exact inferInstance

instance (it : ReportItem) : Decidable (goodItem it) := by
  unfold goodItem; exact inferInstance

instance (s : List ReportItem) : Decidable (storeInv s) := by
  unfold storeInv; exact inferInstance

/-- classList.add puts the class in the list. -/
theorem mem_addClass (cs : List String) (c : String) : c ∈ addClass cs c := by
  unfold addClass
  split
  · assumption
  · exact List.mem_append_right _ (List.mem_singleton.mpr rfl)

/-- When every conversion succeeds, the aggregate resolves with the
payloads in the original order. -/
theorem encodeAll_ok_of_all_ok (fs : List PhotoFile) (h : ∀ f ∈ fs, f.isOk = true) :
    encodeAll fs = Except.ok (fs.map okPayload) := by
  induction fs with
  | nil => rfl
  | cons f fs ih =>
    have hf := h f (List.mem_cons_self f fs)
    have htail := ih (fun g hg => h g (List.mem_cons_of_mem f hg))
    cases f with
    | ok b => simp [encodeAll, fileToBase64, okPayload, htail]
    | bad e => simp [PhotoFile.isOk] at hf

/-- When some conversion fails, the aggregate rejects. -/
theorem encodeAll_error_of_bad (fs : List PhotoFile) (h : ∃ f ∈ fs, f.isOk = false) :
    ∃ e, encodeAll fs = Except.error e := by
  induction fs with
  | nil =>
    obtain ⟨f, hf, _⟩ := h
    exact absurd hf (List.not_mem_nil f)
  | cons f fs ih =>
    cases f with
    | bad e => exact ⟨e, rfl⟩
    | ok b =>
      obtain ⟨g, hg, hbad⟩ := h
      rcases List.mem_cons.mp hg with rfl | hg2
      · simp [PhotoFile.isOk] at hbad
      · obtain ⟨e, he⟩ := ih ⟨g, hg2, hbad⟩
        exact ⟨e, by simp [encodeAll, fileToBase64, he]⟩

/-- A valid add appends exactly the item built from the inputs and
shows the success notification. -/
theorem handleAddItem_valid_eq (inp : AddInputs) (store : List ReportItem)
    (hA : inp.asset ≠ "") (hS : inp.system ≠ "") (hD : inp.description ≠ "")
    (hF : ∀ f ∈ inp.files, f.isOk = true) :
    handleAddItem inp store =
      { store := store ++ [itemOf inp], notifications := [itemAddedNote],
        inputsReset := true } := by
  have hne : ¬ (inp.asset = "" ∨ inp.system = "" ∨ inp.description = "") := by tauto
  simp only [handleAddItem, if_neg hne, encodeAll_ok_of_all_ok inp.files hF]
  rfl

/-- The parsed quantity fallback never produces zero. -/
theorem quantityOf_ne_zero (s : String) : quantityOf s ≠ 0 := by
  unfold quantityOf
  cases h : parseIntJS s with
  | none => decide
  | some n =>
    by_cases h0 : n = 0
    · simp [h0]
    · simp [h0]

/-- splice(i, 1) at an in-range display position drops exactly the
element at that position. -/
theorem spliceRemoveOne_nat_lt {α : Type} (l : List α) (i : Nat) (h : i < l.length) :
    spliceRemoveOne l (i : Int) = l.take i ++ l.drop (i + 1) := by
  have h0 : ¬ ((i : Int) < 0) := not_lt.mpr (Int.natCast_nonneg i)
  have hmin : (i : Int) ⊓ ((l.length : Nat) : Int) = (i : Int) :=
    inf_eq_left.mpr (by exact_mod_cast le_of_lt h)
  simp only [spliceRemoveOne]
  rw [if_neg h0, hmin, Int.toNat_natCast]

/-- splice(i, 1) at a position at or beyond the length is a no-op. -/
theorem spliceRemoveOne_nat_ge {α : Type} (l : List α) (i : Nat) (h : l.length ≤ i) :
    spliceRemoveOne l (i : Int) = l := by
  have h0 : ¬ ((i : Int) < 0) := not_lt.mpr (Int.natCast_nonneg i)
  have hmin : (i : Int) ⊓ ((l.length : Nat) : Int) = ((l.length : Nat) : Int) :=
    inf_eq_right.mpr (by exact_mod_cast h)
  simp only [spliceRemoveOne]
  rw [if_neg h0, hmin, Int.toNat_natCast, List.take_length,
    List.drop_eq_nil_of_le (by omega), List.append_nil]

/-- A sequence of valid adds appends the corresponding items in order. -/
theorem addAll_valid_eq (inps : List AddInputs) (s : List ReportItem)
    (h : ∀ i ∈ inps, validAdd i) :
    addAll inps s = s ++ inps.map itemOf := by
  induction inps generalizing s with
  | nil => simp [addAll]
  | cons a as ih =>
    obtain ⟨h1, h2, h3, h4⟩ := h a (List.mem_cons_self a as)
    have htail := ih (s ++ [itemOf a]) (fun i hi => h i (List.mem_cons_of_mem a hi))
    unfold addAll at htail ⊢
    rw [List.foldl_cons, handleAddItem_valid_eq a s h1 h2 h3 h4]
    simpa [List.append_assoc] using htail

/-- Claim C1: when the technician signature pad exists and reports
empty content, onSubmit issues no POST, sets the warning banner with
the retry message, leaves the pending-items store untouched and leaves
the status line untouched, so the user may retry after signing. -/
theorem C1_empty_signature_no_post (p : Pad) (dom : SubmitDom) (items : List ReportItem)
    (ui : UiState) (h : p.isEmpty = true) :
    (onSubmitSync (some p) dom items ui).action = PostAction.none ∧
    (onSubmitSync (some p) dom items ui).store = items ∧
    (onSubmitSync (some p) dom items ui).ui.alertText =
      "Please provide the Technician Signature before submitting." ∧
    "alert-warning" ∈ (onSubmitSync (some p) dom items ui).ui.alertClasses ∧
    (onSubmitSync (some p) dom items ui).ui.statusText = ui.statusText := by
  simp only [onSubmitSync, h, if_true]
  exact ⟨trivial, trivial, trivial, mem_addClass _ _, trivial⟩

/-- Witness for C1 at a concrete empty pad, form and store. -/
theorem C1_empty_signature_no_post_witness :
    (onSubmitSync (some ⟨true⟩) ⟨"", "opsig", [("site", "A")]⟩ [] uiInit).action =
      PostAction.none ∧
    (onSubmitSync (some ⟨true⟩) ⟨"", "opsig", [("site", "A")]⟩ [] uiInit).store = [] ∧
    (onSubmitSync (some ⟨true⟩) ⟨"", "opsig", [("site", "A")]⟩ [] uiInit).ui.alertText =
      "Please provide the Technician Signature before submitting." ∧
    "alert-warning" ∈
      (onSubmitSync (some ⟨true⟩) ⟨"", "opsig", [("site", "A")]⟩ [] uiInit).ui.alertClasses ∧
    (onSubmitSync (some ⟨true⟩) ⟨"", "opsig", [("site", "A")]⟩ [] uiInit).ui.statusText =
      uiInit.statusText :=
  C1_empty_signature_no_post ⟨true⟩ ⟨"", "opsig", [("site", "A")]⟩ [] uiInit rfl

/-- Claim C10: when the technician canvas is absent at startup no pad
object is constructed, and onSubmit then skips the empty-signature
guard entirely and issues the POST whose tech_signature field is
whatever the hidden field holds, even the empty string. -/
theorem C10_absent_pad_skips_guard (dom : SubmitDom) (items : List ReportItem)
    (ui : UiState) :
    bootstrapTechPad false = Option.none ∧
    (onSubmitSync (bootstrapTechPad false) dom items ui).action =
      PostAction.post
        { fields := dom.formFields, tech_signature := dom.techSigData,
          opMan_signature := dom.opManSigData, report_items := items } ∧
    (onSubmitSync (bootstrapTechPad false) dom items ui).ui.statusText =
      "Submitting... Please wait." :=
  ⟨rfl, rfl, rfl⟩

/-- Counterexample to claim C4: in the success handler, with a response
carrying no URL fields, the handler tick contains NO anchor activation
at all — the first download activation is not issued in the same
scheduling tick as the response handler; both clicks sit in zero-delay
timer callbacks, because triggerDownload wraps the click in
setTimeout(..., 0) on every call. -/
theorem C4_first_download_not_immediate_counterexample :
    (onSubmitSuccess ⟨Option.none, Option.none⟩ [] uiInit).syncActs.filter isClickAct = [] ∧
    (onSubmitSuccess ⟨Option.none, Option.none⟩ [] uiInit).timers =
      [[DomAct.clickAnchor "/download-pdf" "Site_Visit_Report.pdf",
        DomAct.removeAnchor "/download-pdf" "Site_Visit_Report.pdf"],
       [DomAct.clickAnchor "/download-excel" "Site_Visit_Report.xlsx",
        DomAct.removeAnchor "/download-excel" "Site_Visit_Report.xlsx"]] :=
  ⟨rfl, rfl⟩

/-- Claim C4 as amended: on every successful response exactly two
download activations are scheduled, pdf before xlsx, each through a
temporary invisible anchor that is created and appended in the handler
tick and clicked then discarded in its own zero-delay timer callback;
BOTH activations are deferred to timer callbacks — neither click
happens in the handler tick — and the store is untouched. -/
theorem C4_two_deferred_downloads (r : ResponseData) (store : List ReportItem)
    (ui : UiState) :
    (onSubmitSuccess r store ui).syncActs =
      [DomAct.createAnchor (jsOrStr r.pdf_url "/download-pdf") "Site_Visit_Report.pdf" true,
       DomAct.appendAnchor (jsOrStr r.pdf_url "/download-pdf") "Site_Visit_Report.pdf",
       DomAct.createAnchor (jsOrStr r.excel_url "/download-excel") "Site_Visit_Report.xlsx" true,
       DomAct.appendAnchor (jsOrStr r.excel_url "/download-excel") "Site_Visit_Report.xlsx"] ∧
    (onSubmitSuccess r store ui).syncActs.filter isClickAct = [] ∧
    (onSubmitSuccess r store ui).timers =
      [[DomAct.clickAnchor (jsOrStr r.pdf_url "/download-pdf") "Site_Visit_Report.pdf",
        DomAct.removeAnchor (jsOrStr r.pdf_url "/download-pdf") "Site_Visit_Report.pdf"],
       [DomAct.clickAnchor (jsOrStr r.excel_url "/download-excel") "Site_Visit_Report.xlsx",
        DomAct.removeAnchor (jsOrStr r.excel_url "/download-excel") "Site_Visit_Report.xlsx"]] ∧
    (onSubmitSuccess r store ui).store = store ∧
    (onSubmitSuccess r store ui).notifications = [reportsGeneratedNote] :=
  ⟨rfl, rfl, rfl, rfl, rfl⟩

/-- Counterexample to claim C5: with the quantity input string -5 and
valid required fields, the added item carries quantity -5, which is not
a positive integer — parseInt keeps negative values and the || 1
fallback fires only for NaN and 0. -/
theorem C5_negative_quantity_counterexample :
    (handleAddItem ⟨"Pump", "HVAC", "Leak", "-5", "", "", []⟩ []).store =
      [{ asset := "Pump", system := "HVAC", description := "Leak", quantity := -5,
         brand := "", comments := "", photoFiles := [] }] ∧
    ¬ ((0 : Int) < -5) := by
  constructor
  · decide
  · decide

/-- Claim C5 as amended: the quantity of every added item is the
parseInt result of the quantity string whenever that result is a
nonzero integer (negative values included), and defaults to 1 exactly
when the string is unparsable (NaN) or parses to 0; the stored quantity
is therefore never 0, but it need not be positive. -/
theorem C5_quantity_parse_default (inp : AddInputs) (store : List ReportItem)
    (hA : inp.asset ≠ "") (hS : inp.system ≠ "") (hD : inp.description ≠ "")
    (hF : ∀ f ∈ inp.files, f.isOk = true) :
    (handleAddItem inp store).store = store ++ [itemOf inp] ∧
    (itemOf inp).quantity = quantityOf inp.quantity ∧
    quantityOf inp.quantity ≠ 0 ∧
    (parseIntJS inp.quantity = Option.none → quantityOf inp.quantity = 1) ∧
    (parseIntJS inp.quantity = some 0 → quantityOf inp.quantity = 1) ∧
    (∀ n : Int, parseIntJS inp.quantity = some n → n ≠ 0 → quantityOf inp.quantity = n) := by
  refine ⟨by rw [handleAddItem_valid_eq inp store hA hS hD hF], rfl,
    quantityOf_ne_zero inp.quantity, ?_, ?_, ?_⟩
  · intro hn
    unfold quantityOf
    rw [hn]
  · intro hn
    unfold quantityOf
    rw [hn]
    simp
  · intro n hn hnz
    unfold quantityOf
    rw [hn]
    simp [hnz]

/-- Witness for C5 at concrete inputs: quantity string 7 parses to 7,
quantity string 0 defaults to 1. -/
theorem C5_quantity_parse_default_witness :
    (handleAddItem ⟨"Pump", "HVAC", "Leak", "7", "", "", []⟩ []).store =
      [] ++ [itemOf ⟨"Pump", "HVAC", "Leak", "7", "", "", []⟩] ∧
    quantityOf "7" = 7 ∧
    quantityOf "0" = 1 := by
  refine ⟨(C5_quantity_parse_default ⟨"Pump", "HVAC", "Leak", "7", "", "", []⟩ []
    (by decide) (by decide) (by decide) (by decide)).1, ?_, ?_⟩
  · exact (C5_quantity_parse_default ⟨"Pump", "HVAC", "Leak", "7", "", "", []⟩ []
      (by decide) (by decide) (by decide) (by decide)).2.2.2.2.2 7 (by decide) (by decide)
  · decide

/-- Claim C2: with the required fields present, the photo-encoding step
produces one payload per file in the original order and the add appends
exactly one item carrying them; if any single conversion fails the add
is aborted as a unit — the store is unchanged and exactly one error
notification is shown, with no partial results used. -/
theorem C2_photo_encoding_all_or_nothing (inp : AddInputs) (store : List ReportItem)
    (hA : inp.asset ≠ "") (hS : inp.system ≠ "") (hD : inp.description ≠ "") :
    ((∀ f ∈ inp.files, f.isOk = true) →
       encodeAll inp.files = Except.ok (inp.files.map okPayload) ∧
       (inp.files.map okPayload).length = inp.files.length ∧
       (handleAddItem inp store).store = store ++ [itemOf inp] ∧
       (itemOf inp).photoFiles = inp.files.map okPayload ∧
       (handleAddItem inp store).notifications = [itemAddedNote]) ∧
    ((∃ f ∈ inp.files, f.isOk = false) →
       (handleAddItem inp store).store = store ∧
       (handleAddItem inp store).notifications = [photoErrorNote]) := by
  have hne : ¬ (inp.asset = "" ∨ inp.system = "" ∨ inp.description = "") := by tauto
  constructor
  · intro hF
    refine ⟨encodeAll_ok_of_all_ok _ hF, by simp, ?_, rfl, ?_⟩
    · rw [handleAddItem_valid_eq inp store hA hS hD hF]
    · rw [handleAddItem_valid_eq inp store hA hS hD hF]
  · intro hBad
    obtain ⟨e, he⟩ := encodeAll_error_of_bad inp.files hBad
    constructor
    · simp only [handleAddItem, if_neg hne, he]
    · simp only [handleAddItem, if_neg hne, he]

/-- Witness for C2: three convertible files come back in order and are
stored on one item; the same add with the middle conversion failing
leaves the store empty and shows the single photo-error notification. -/
theorem C2_photo_encoding_all_or_nothing_witness :
    encodeAll [PhotoFile.ok "A1", PhotoFile.ok "B1", PhotoFile.ok "C1"] =
      Except.ok ["A1", "B1", "C1"] ∧
    (handleAddItem ⟨"Pump", "HVAC", "Leak", "2", "", "",
        [PhotoFile.ok "A1", PhotoFile.ok "B1", PhotoFile.ok "C1"]⟩ []).store =
      [] ++ [itemOf ⟨"Pump", "HVAC", "Leak", "2", "", "",
        [PhotoFile.ok "A1", PhotoFile.ok "B1", PhotoFile.ok "C1"]⟩] ∧
    (handleAddItem ⟨"Pump", "HVAC", "Leak", "2", "", "",
        [PhotoFile.ok "A1", PhotoFile.bad "boom", PhotoFile.ok "C1"]⟩ []).store = [] ∧
    (handleAddItem ⟨"Pump", "HVAC", "Leak", "2", "", "",
        [PhotoFile.ok "A1", PhotoFile.bad "boom", PhotoFile.ok "C1"]⟩ []).notifications =
      [photoErrorNote] := by
  have h1 := (C2_photo_encoding_all_or_nothing
    ⟨"Pump", "HVAC", "Leak", "2", "", "",
      [PhotoFile.ok "A1", PhotoFile.ok "B1", PhotoFile.ok "C1"]⟩ []
    (by decide) (by decide) (by decide)).1 (by decide)
  have h2 := (C2_photo_encoding_all_or_nothing
    ⟨"Pump", "HVAC", "Leak", "2", "", "",
      [PhotoFile.ok "A1", PhotoFile.bad "boom", PhotoFile.ok "C1"]⟩ []
    (by decide) (by decide) (by decide)).2 ⟨PhotoFile.bad "boom", by decide, rfl⟩
  exact ⟨h1.1, h1.2.2.1, h2.1, h2.2⟩

/-- Claim C3: an add with any required field empty leaves the store
unchanged and shows the missing-fields error notification exactly once;
the add and removal operations preserve the invariant that every stored
item has non-empty asset, system and description. -/
theorem C3_store_required_fields (inp : AddInputs) (s : List ReportItem) (i : Nat) :
    ((inp.asset = "" ∨ inp.system = "" ∨ inp.description = "") →
       (handleAddItem inp s).store = s ∧
       (handleAddItem inp s).notifications = [missingFieldsNote]) ∧
    (storeInv s → storeInv (handleAddItem inp s).store) ∧
    (storeInv s → storeInv (spliceRemoveOne s (i : Int))) := by
  refine ⟨?_, ?_, ?_⟩
  · intro hv
    constructor
    · simp only [handleAddItem, if_pos hv]
    · simp only [handleAddItem, if_pos hv]
  · intro hInv
    by_cases hv : inp.asset = "" ∨ inp.system = "" ∨ inp.description = ""
    · simpa only [handleAddItem, if_pos hv] using hInv
    · cases he : encodeAll inp.files with
      | error e => simpa only [handleAddItem, if_neg hv, he] using hInv
      | ok bs =>
        simp only [handleAddItem, if_neg hv, he]
        intro it hit
        rcases List.mem_append.mp hit with hmem | hmem
        · exact hInv it hmem
        · rcases List.mem_singleton.mp hmem with rfl
          push_neg at hv
          exact ⟨hv.1, hv.2.1, hv.2.2⟩
  · intro hInv it hit
    simp only [spliceRemoveOne] at hit
    rcases List.mem_append.mp hit with hmem | hmem
    · exact hInv it (List.take_subset _ _ hmem)
    · exact hInv it (List.drop_subset _ _ hmem)

/-- Witness for C3: an add with an empty asset leaves the store empty
and shows the missing-fields notification; a valid add preserves the
invariant. -/
theorem C3_store_required_fields_witness :
    ((handleAddItem ⟨"", "HVAC", "Leak", "1", "", "", []⟩ []).store = [] ∧
     (handleAddItem ⟨"", "HVAC", "Leak", "1", "", "", []⟩ []).notifications =
       [missingFieldsNote]) ∧
    storeInv (handleAddItem ⟨"Pump", "HVAC", "Leak", "1", "", "", []⟩ []).store := by
  refine ⟨(C3_store_required_fields ⟨"", "HVAC", "Leak", "1", "", "", []⟩ [] 0).1
    (Or.inl rfl), ?_⟩
  exact (C3_store_required_fields ⟨"Pump", "HVAC", "Leak", "1", "", "", []⟩ [] 0).2.1
    (by decide)

/-- Claim C6, evaluated at the failing input. With a single stored
item rendered on screen — the boot render of the empty store followed
by the render after the add, exactly the render sequence the program
performs (main.js lines 315 and 156) — a remove click at display
position 0 removes the item from the store, but the subsequent render
takes the missing-element early return (the placeholder was detached
by the non-empty render and never re-appended), so the view still
shows the removed item and no placeholder, while the claim requires
the subsequent render to show the remaining N-1 items. -/
theorem C6_remove_stale_view_bug :
    (removeAtClick [(⟨"A1", "S1", "D1", 1, "", "", []⟩ : ReportItem)] 0
        (renderPendingItems [(⟨"A1", "S1", "D1", 1, "", "", []⟩ : ReportItem)]
          (renderPendingItems [] domInit))).1 = [] ∧
    (renderPendingItems [(⟨"A1", "S1", "D1", 1, "", "", []⟩ : ReportItem)]
        (renderPendingItems [] domInit)).rows.length = 1 ∧
    (removeAtClick [(⟨"A1", "S1", "D1", 1, "", "", []⟩ : ReportItem)] 0
        (renderPendingItems [(⟨"A1", "S1", "D1", 1, "", "", []⟩ : ReportItem)]
          (renderPendingItems [] domInit))).2 =
      renderPendingItems [(⟨"A1", "S1", "D1", 1, "", "", []⟩ : ReportItem)]
        (renderPendingItems [] domInit) ∧
    (removeAtClick [(⟨"A1", "S1", "D1", 1, "", "", []⟩ : ReportItem)] 0
        (renderPendingItems [(⟨"A1", "S1", "D1", 1, "", "", []⟩ : ReportItem)]
          (renderPendingItems [] domInit))).2.rows.length = 1 ∧
    (removeAtClick [(⟨"A1", "S1", "D1", 1, "", "", []⟩ : ReportItem)] 0
        (renderPendingItems [(⟨"A1", "S1", "D1", 1, "", "", []⟩ : ReportItem)]
          (renderPendingItems [] domInit))).2.emptyVisible = false := by
  decide

/-- Claim C7, evaluated at the failing input: the render sequence the
program performs — the boot render of the empty store (main.js line
315) and one render after each successful add (line 156). The boot
render shows the placeholder and the first add renders its single row,
but that first non-empty render orphans the placeholder, so the render
after the second add early-returns: the view still shows 1 row while
the store holds 2 items, the result differs from rendering the same
store over a fresh document (render is not a pure function of the
store contents), and a later render of the emptied store keeps the
stale row instead of the placeholder. -/
theorem C7_render_noop_bug :
    (renderPendingItems [] domInit).emptyVisible = true ∧
    (renderPendingItems [] domInit).rows = [] ∧
    (renderPendingItems [(⟨"A1", "S1", "D1", 1, "", "", []⟩ : ReportItem)]
        (renderPendingItems [] domInit)).rows.length = 1 ∧
    (addAll [⟨"A1", "S1", "D1", "1", "", "", []⟩, ⟨"A2", "S2", "D2", "2", "", "", []⟩]
        []).length = 2 ∧
    (renderPendingItems
        [⟨"A1", "S1", "D1", 1, "", "", []⟩, ⟨"A2", "S2", "D2", 2, "", "", []⟩]
        (renderPendingItems [(⟨"A1", "S1", "D1", 1, "", "", []⟩ : ReportItem)]
          (renderPendingItems [] domInit))).rows.length = 1 ∧
    renderPendingItems
        [⟨"A1", "S1", "D1", 1, "", "", []⟩, ⟨"A2", "S2", "D2", 2, "", "", []⟩]
        (renderPendingItems [(⟨"A1", "S1", "D1", 1, "", "", []⟩ : ReportItem)]
          (renderPendingItems [] domInit)) ≠
      renderPendingItems
        [⟨"A1", "S1", "D1", 1, "", "", []⟩, ⟨"A2", "S2", "D2", 2, "", "", []⟩]
        domInit ∧
    (renderPendingItems []
        (renderPendingItems [(⟨"A1", "S1", "D1", 1, "", "", []⟩ : ReportItem)]
          (renderPendingItems [] domInit))).emptyVisible = false := by
  decide

/-- Counterexample to claim C8: when the error carries response data
that has no message field, the banner shows the literal text undefined
instead of surfacing the transport error text (here Network Error) —
the code tests only for the presence of response data, not of the
message field. -/
theorem C8_undefined_banner_counterexample :
    (onSubmitError ⟨some ⟨some ⟨Option.none⟩⟩, "Network Error"⟩ [] uiInit).alertText =
      "Error: undefined. Check console for details." ∧
    (onSubmitError ⟨some ⟨some ⟨Option.none⟩⟩, "Network Error"⟩ [] uiInit).alertText ≠
      "Error: Network Error. Check console for details." := by
  constructor
  · rfl
  · decide

/-- Claim C8 as amended: on every failed submission the store is
unchanged, the error notification is shown exactly once, the danger
banner is set, and its text embeds the server message verbatim when the
error response carries data with a message field; it falls back to the
transport error text only when there is no response or no response
data; when response data is present but lacks a message field the
banner shows the literal text undefined. -/
theorem C8_failure_banner (e : AxiosError) (store : List ReportItem) (ui : UiState) :
    (onSubmitError e store ui).store = store ∧
    (onSubmitError e store ui).notifications = [submissionFailedNote] ∧
    "alert-danger" ∈ (onSubmitError e store ui).alertClasses ∧
    (onSubmitError e store ui).statusText = "Submission Failed!" ∧
    (∀ r d m, e.response = some r → r.data = some d → d.message = some m →
       (onSubmitError e store ui).alertText =
         "Error: " ++ m ++ ". Check console for details.") ∧
    (e.response = Option.none →
       (onSubmitError e store ui).alertText =
         "Error: " ++ e.message ++ ". Check console for details.") ∧
    (∀ r, e.response = some r → r.data = Option.none →
       (onSubmitError e store ui).alertText =
         "Error: " ++ e.message ++ ". Check console for details.") ∧
    (∀ r d, e.response = some r → r.data = some d → d.message = Option.none →
       (onSubmitError e store ui).alertText =
         "Error: undefined. Check console for details.") := by
  refine ⟨rfl, rfl, mem_addClass _ _, rfl, ?_, ?_, ?_, ?_⟩
  · intro r d m hr hd hm
    simp only [onSubmitError, catchBannerMsg, jsShowOptStr, hr, hd, hm]
  · intro hr
    simp only [onSubmitError, catchBannerMsg, hr]
  · intro r hr hd
    simp only [onSubmitError, catchBannerMsg, hr, hd]
  · intro r d hr hd hm
    simp only [onSubmitError, catchBannerMsg, jsShowOptStr, hr, hd, hm]
    decide

/-- Witness for C8 at a concrete server error whose body carries a
message field: the banner embeds it verbatim and the store stays
unchanged. -/
theorem C8_failure_banner_witness :
    (onSubmitError ⟨some ⟨some ⟨some "Bad input"⟩⟩, "Request failed"⟩ [] uiInit).alertText =
      "Error: Bad input. Check console for details." ∧
    (onSubmitError ⟨some ⟨some ⟨some "Bad input"⟩⟩, "Request failed"⟩ [] uiInit).store =
      [] := by
  constructor
  · have h := (C8_failure_banner ⟨some ⟨some ⟨some "Bad input"⟩⟩, "Request failed"⟩ []
      uiInit).2.2.2.2.1 ⟨some ⟨some "Bad input"⟩⟩ ⟨some "Bad input"⟩ "Bad input" rfl rfl rfl
    rw [h]
    decide
  · exact (C8_failure_banner ⟨some ⟨some ⟨some "Bad input"⟩⟩, "Request failed"⟩ []
      uiInit).1

/-- Counterexample to claim C9: when the top modal element exists but
the title sub-element is missing, showNotification throws instead of
degrading to a no-op — the code guards only customAlertModal and
dereferences customAlertTitle without a check. -/
theorem C9_partial_scaffold_crash_counterexample :
    showNotification ⟨true, false, true, true⟩ "success" "T" "M" =
      NotifyResult.crash "customAlertTitle" ∧
    showNotification ⟨true, false, true, true⟩ "success" "T" "M" ≠ NotifyResult.noop := by
  constructor
  · rfl
  · decide

/-- Claim C9 as amended: when the top modal element is absent the
operation is a silent no-op for every input, and an unrecognized kind
falls back to the info styling; but when the modal element is present
while any of its sub-elements is missing — the title, the body, or the
modal-content dialog — the operation throws on the first missing one
in the dereference order title, body, dialog (main.js lines 31, 34,
36-38), instead of degrading. -/
theorem C9_notify_scaffold (dom : NotifyDom) (type : String) (title : String)
    (message : String) :
    (dom.modalPresent = false → showNotification dom type title message = NotifyResult.noop) ∧
    (dom.modalPresent = true → dom.titlePresent = true → dom.bodyPresent = true →
       dom.dialogPresent = true →
       showNotification dom type title message =
         NotifyResult.shown (iconDataOf type).1 (iconDataOf type).2 title message) ∧
    (type ≠ "success" → type ≠ "error" → type ≠ "warning" →
       iconDataOf type = ("fa-circle-info text-info", "border-info")) ∧
    (dom.modalPresent = true → dom.titlePresent = false →
       showNotification dom type title message = NotifyResult.crash "customAlertTitle") ∧
    (dom.modalPresent = true → dom.titlePresent = true → dom.bodyPresent = false →
       showNotification dom type title message = NotifyResult.crash "customAlertBody") ∧
    (dom.modalPresent = true → dom.titlePresent = true → dom.bodyPresent = true →
       dom.dialogPresent = false →
       showNotification dom type title message = NotifyResult.crash "modal-content") := by
  refine ⟨?_, ?_, ?_, ?_, ?_, ?_⟩
  · intro h
    simp [showNotification, h]
  · intro h1 h2 h3 h4
    simp [showNotification, h1, h2, h3, h4]
  · intro h1 h2 h3
    unfold iconDataOf
    rw [if_neg h1, if_neg h2, if_neg h3]
  · intro h1 h2
    simp [showNotification, h1, h2]
  · intro h1 h2 h3
    simp [showNotification, h1, h2, h3]
  · intro h1 h2 h3 h4
    simp [showNotification, h1, h2, h3, h4]

/-- Witness for C9: absent modal scaffold gives a no-op, a full
scaffold with an unrecognized kind shows the info styling, and each of
the three missing sub-elements — title, body, dialog — produces its
crash. -/
theorem C9_notify_scaffold_witness :
    showNotification ⟨false, false, false, false⟩ "error" "T" "M" = NotifyResult.noop ∧
    showNotification ⟨true, true, true, true⟩ "bogus" "T" "M" =
      NotifyResult.shown "fa-circle-info text-info" "border-info" "T" "M" ∧
    iconDataOf "bogus" = ("fa-circle-info text-info", "border-info") ∧
    showNotification ⟨true, false, true, true⟩ "warning" "T" "M" =
      NotifyResult.crash "customAlertTitle" ∧
    showNotification ⟨true, true, false, true⟩ "info" "T" "M" =
      NotifyResult.crash "customAlertBody" ∧
    showNotification ⟨true, true, true, false⟩ "info" "T" "M" =
      NotifyResult.crash "modal-content" := by
  refine ⟨(C9_notify_scaffold ⟨false, false, false, false⟩ "error" "T" "M").1 rfl, ?_,
    (C9_notify_scaffold ⟨false, false, false, false⟩ "bogus" "T" "M").2.2.1
      (by decide) (by decide) (by decide),
    (C9_notify_scaffold ⟨true, false, true, true⟩ "warning" "T" "M").2.2.2.1 rfl rfl,
    (C9_notify_scaffold ⟨true, true, false, true⟩ "info" "T" "M").2.2.2.2.1 rfl rfl rfl,
    (C9_notify_scaffold ⟨true, true, true, false⟩ "info" "T" "M").2.2.2.2.2
      rfl rfl rfl rfl⟩
  have h := (C9_notify_scaffold ⟨true, true, true, true⟩ "bogus" "T" "M").2.1 rfl rfl rfl rfl
  rw [h]
  decide
